import Mathlib

/-!
Verification of `eclipse_make_restart.py`.

The repository prepares an Eclipse reservoir-simulation restart run:
`determine_restart_id` scans artifact files `{basename}.Xnnnn` / `{basename}.Snnnn`
for the latest report step, and `update_data_file` rewrites the `.DATA` deck
(a list of text lines) so the next run resumes from that step.

The deck is modelled as a `List String`, every element one line of the file,
including its trailing newline character (exactly what Python's
`for line in file` yields).  The filesystem is modelled as a `List String` of
file names.  All definitions are translated from the source.
-/

/-- Python `line.startswith(p)`: the characters of `p` are a prefix of the
characters of `line`. -/
def pyStartsWith (line p : String) : Bool :=
  p.data.isPrefixOf line.data

/-- Python `re.search(r'^-- *INCLUDE', line)`: the line starts with `--`,
then zero or more spaces, then `INCLUDE`.  (The regex' greedy ` *` with
backtracking is equivalent to dropping the maximal run of spaces, since the
character after the spaces must be `I`.) -/
def commentedInclude (line : String) : Bool :=
  pyStartsWith line "--" &&
    "INCLUDE".data.isPrefixOf ((line.data.drop 2).dropWhile (fun c => c == ' '))

/-- The local boolean flags of `update_data_file` (source lines 63-69). -/
structure RewState where
  in_solution : Bool
  in_schedule : Bool
  restart_updated : Bool
  found_restart : Bool
  found_skiprest : Bool
  found_include : Bool
  found_commented_include : Bool
deriving Repr, DecidableEq

/-- All flags start out `False` (source lines 63-69). -/
def initState : RewState :=
  { in_solution := false, in_schedule := false, restart_updated := false,
    found_restart := false, found_skiprest := false, found_include := false,
    found_commented_include := false }

/-- The generated parameter line `' {basename} {id} /\n'` (source lines 103 and 115). -/
def restartLine (basename id : String) : String :=
  " " ++ basename ++ " " ++ id ++ " /\n"

/-- The `if/elif` chain updating the section/flag bookkeeping for the current
line (source lines 74-96). -/
def updateFlags (s : RewState) (line : String) : RewState :=
  if pyStartsWith line "SOLUTION" then
    { s with in_solution := true, restart_updated := false, found_restart := false,
             found_include := false, found_commented_include := false }
  else if pyStartsWith line "SUMMARY" then
    { s with in_solution := false }
  else if pyStartsWith line "SCHEDULE" then
    { s with in_schedule := true, in_solution := false, found_skiprest := false,
             found_include := false, found_commented_include := false }
  else if pyStartsWith line "RESTART" then
    { s with found_restart := true }
  else if pyStartsWith line "INCLUDE" then
    { s with found_include := true }
  else if commentedInclude line then
    { s with found_commented_include := true }
  else s

/-- Gate of rule 2 "Add RESTART lines between SOLUTION and INCLUDE" (source line 99). -/
def gate2 (s : RewState) : Bool :=
  s.in_solution && (s.found_include || s.found_commented_include) && !s.found_restart

/-- Gate of rule 3 "If RESTART already there: just update number" (source line 111). -/
def gate3 (s : RewState) : Bool :=
  s.found_restart && !s.restart_updated

/-- Gate of rule 4 "comment out INCLUDE in solution" (source line 120). -/
def gate4 (s : RewState) : Bool :=
  s.in_solution && s.found_include && !s.found_commented_include

/-- Gate of rule 5 "Add SKIPREST to SCHEDULE section" (source line 131). -/
def gate5 (s : RewState) : Bool :=
  s.in_schedule && s.found_include && !s.found_skiprest

/-- State of one loop iteration: `out` are the lines appended to `new_data`
by the rules so far during this iteration, `line` is the current (possibly
replaced) line, `rest` the not-yet-consumed input lines, `st` the flags. -/
structure Iter where
  out : List String
  line : String
  rest : List String
  st : RewState
deriving Repr, DecidableEq

/-- Rule 2 (source lines 99-108): insert a fresh `RESTART` block. -/
def rule2 (basename id : String) (x : Iter) : Iter :=
  if gate2 x.st then
    { x with out := x.out ++ ["RESTART\n", restartLine basename id, "\n"],
             st := { x.st with found_restart := true, restart_updated := true } }
  else x

/-- Rule 3 (source lines 111-117): emit the `RESTART` line, consume the next
input line (`data_file.readline()`, which yields `""` at end of input; its
content is discarded) and replace the current line by the generated parameter
line. -/
def rule3 (basename id : String) (x : Iter) : Iter :=
  if gate3 x.st then
    { x with out := x.out ++ [x.line],
             line := restartLine basename id,
             rest := x.rest.drop 1,
             st := { x.st with restart_updated := true } }
  else x

/-- Rule 4 (source lines 120-128): emit the current line prefixed with `--`,
consume the next input line (`""` at end of input) and keep it, prefixed with
`--`, as the current line. -/
def rule4 (x : Iter) : Iter :=
  if gate4 x.st then
    { x with out := x.out ++ ["--" ++ x.line],
             line := "--" ++ x.rest.headD "",
             rest := x.rest.drop 1,
             st := { x.st with found_commented_include := true } }
  else x

/-- Rule 5 (source lines 131-134): append `'SKIPREST\n\n'`. -/
def rule5 (x : Iter) : Iter :=
  if gate5 x.st then
    { x with out := x.out ++ ["SKIPREST\n\n"],
             st := { x.st with found_skiprest := true } }
  else x

/-- One iteration of the `for line in data_file` loop (source lines 72-134),
up to but not including the final `new_data.append(line)`. -/
def step (basename id : String) (s : RewState) (line : String) (rest : List String) : Iter :=
  rule5 (rule4 (rule3 basename id (rule2 basename id
    { out := [], line := line, rest := rest, st := updateFlags s line })))

theorem rule2_rest (basename id : String) (x : Iter) :
    (rule2 basename id x).rest = x.rest := by
  unfold rule2; split <;> rfl

theorem rule3_rest_le (basename id : String) (x : Iter) :
    (rule3 basename id x).rest.length ≤ x.rest.length := by
  unfold rule3; split <;> simp

theorem rule4_rest_le (x : Iter) :
    (rule4 x).rest.length ≤ x.rest.length := by
  unfold rule4; split <;> simp

theorem rule5_rest (x : Iter) : (rule5 x).rest = x.rest := by
  unfold rule5; split <;> rfl

theorem step_rest_le (basename id : String) (s : RewState) (line : String)
    (rest : List String) :
    (step basename id s line rest).rest.length ≤ rest.length := by
  unfold step
  calc (rule5 (rule4 (rule3 basename id (rule2 basename id
          { out := [], line := line, rest := rest, st := updateFlags s line })))).rest.length
      = (rule4 (rule3 basename id (rule2 basename id
          { out := [], line := line, rest := rest, st := updateFlags s line }))).rest.length := by
        rw [rule5_rest]
    _ ≤ (rule3 basename id (rule2 basename id
          { out := [], line := line, rest := rest, st := updateFlags s line })).rest.length :=
        rule4_rest_le _
    _ ≤ (rule2 basename id
          { out := [], line := line, rest := rest, st := updateFlags s line }).rest.length :=
        rule3_rest_le _ _ _
    _ = rest.length := by rw [rule2_rest]

/-- The whole loop of `update_data_file` (source lines 72-136): per input line
run `step`, then append the (possibly replaced) current line after the lines
the rules emitted, and continue with the input lines not yet consumed. -/
def rewriteGo (basename id : String) (s : RewState) (lines : List String) : List String :=
  match lines with
  | [] => []
  | line :: rest =>
    let x := step basename id s line rest
    x.out ++ x.line :: rewriteGo basename id x.st x.rest
termination_by lines.length
decreasing_by
  simp only [List.length_cons]
  exact Nat.lt_succ_of_le (step_rest_le basename id s line rest)

/-- `update_data_file` (source lines 56-137): the returned `new_data` for a
deck given as its list of lines. -/
def update_data_file (basename id : String) (deck : List String) : List String :=
  rewriteGo basename id initState deck

theorem rewriteGo_nil (basename id : String) (s : RewState) :
    rewriteGo basename id s [] = [] := by
  rw [rewriteGo]

theorem rewriteGo_cons (basename id : String) (s : RewState) (line : String)
    (rest : List String) :
    rewriteGo basename id s (line :: rest) =
      (step basename id s line rest).out ++ (step basename id s line rest).line ::
        rewriteGo basename id (step basename id s line rest).st
          (step basename id s line rest).rest := by
  rw [rewriteGo]

/-! ### Keyword prefixes are mutually exclusive -/

theorem pyStartsWith_excl {l : String} (p q : String) (h : pyStartsWith l p = true)
    (hpq : p.data.isPrefixOf q.data = false) (hqp : q.data.isPrefixOf p.data = false) :
    pyStartsWith l q = false := by
  have h1 : p.data <+: l.data := List.isPrefixOf_iff_prefix.mp h
  cases hq : pyStartsWith l q with
  | false => rfl
  | true =>
    have h2 : q.data <+: l.data :=
      List.isPrefixOf_iff_prefix.mp (show q.data.isPrefixOf l.data = true from hq)
    rcases List.prefix_or_prefix_of_prefix h1 h2 with hc | hc
    · rw [← List.isPrefixOf_iff_prefix] at hc; simp [hc] at hpq
    · rw [← List.isPrefixOf_iff_prefix] at hc; simp [hc] at hqp

theorem res_not_sol {l : String} (h : pyStartsWith l "RESTART" = true) :
    pyStartsWith l "SOLUTION" = false :=
  pyStartsWith_excl "RESTART" "SOLUTION" h (by decide) (by decide)

theorem res_not_sum {l : String} (h : pyStartsWith l "RESTART" = true) :
    pyStartsWith l "SUMMARY" = false :=
  pyStartsWith_excl "RESTART" "SUMMARY" h (by decide) (by decide)

theorem res_not_sch {l : String} (h : pyStartsWith l "RESTART" = true) :
    pyStartsWith l "SCHEDULE" = false :=
  pyStartsWith_excl "RESTART" "SCHEDULE" h (by decide) (by decide)

theorem inc_not_sol {l : String} (h : pyStartsWith l "INCLUDE" = true) :
    pyStartsWith l "SOLUTION" = false :=
  pyStartsWith_excl "INCLUDE" "SOLUTION" h (by decide) (by decide)

theorem inc_not_sum {l : String} (h : pyStartsWith l "INCLUDE" = true) :
    pyStartsWith l "SUMMARY" = false :=
  pyStartsWith_excl "INCLUDE" "SUMMARY" h (by decide) (by decide)

theorem inc_not_sch {l : String} (h : pyStartsWith l "INCLUDE" = true) :
    pyStartsWith l "SCHEDULE" = false :=
  pyStartsWith_excl "INCLUDE" "SCHEDULE" h (by decide) (by decide)

theorem inc_not_res {l : String} (h : pyStartsWith l "INCLUDE" = true) :
    pyStartsWith l "RESTART" = false :=
  pyStartsWith_excl "INCLUDE" "RESTART" h (by decide) (by decide)

theorem sch_not_sol {l : String} (h : pyStartsWith l "SCHEDULE" = true) :
    pyStartsWith l "SOLUTION" = false :=
  pyStartsWith_excl "SCHEDULE" "SOLUTION" h (by decide) (by decide)

theorem sch_not_sum {l : String} (h : pyStartsWith l "SCHEDULE" = true) :
    pyStartsWith l "SUMMARY" = false :=
  pyStartsWith_excl "SCHEDULE" "SUMMARY" h (by decide) (by decide)

/-! ### Lines that do not change the bookkeeping flags pass through -/

/-- A line that matches none of the six keyword patterns of the `if/elif`
chain; such a line never changes the flags. -/
def inert (l : String) : Bool :=
  !pyStartsWith l "SOLUTION" && !pyStartsWith l "SUMMARY" && !pyStartsWith l "SCHEDULE" &&
    !pyStartsWith l "RESTART" && !pyStartsWith l "INCLUDE" && !commentedInclude l

theorem updateFlags_inert {s : RewState} {l : String} (h : inert l = true) :
    updateFlags s l = s := by
  simp only [inert, Bool.and_eq_true, Bool.not_eq_true'] at h
  obtain ⟨⟨⟨⟨⟨h1, h2⟩, h3⟩, h4⟩, h5⟩, h6⟩ := h
  simp [updateFlags, h1, h2, h3, h4, h5, h6]

theorem updateFlags_inc_again {s : RewState} {l : String}
    (h : pyStartsWith l "INCLUDE" = true) (hs : s.found_include = true) :
    updateFlags s l = s := by
  cases s
  simp only [updateFlags, inc_not_sol h, inc_not_sum h, inc_not_sch h, inc_not_res h, h,
    Bool.false_eq_true, if_false, if_true]
  simp_all

/-- A state in which none of the four output rules fires. -/
def quiescent (s : RewState) : Bool :=
  !gate2 s && !gate3 s && !gate4 s && !gate5 s

theorem quiescent_spec {s : RewState} (h : quiescent s = true) :
    gate2 s = false ∧ gate3 s = false ∧ gate4 s = false ∧ gate5 s = false := by
  simp only [quiescent, Bool.and_eq_true, Bool.not_eq_true'] at h
  exact ⟨h.1.1.1, h.1.1.2, h.1.2, h.2⟩

/-- In a quiescent state, a line that does not change the flags is emitted
unchanged and nothing else happens. -/
theorem step_passive {basename id : String} {s : RewState} {line : String}
    {rest : List String} (hU : updateFlags s line = s) (hq : quiescent s = true) :
    step basename id s line rest = { out := [], line := line, rest := rest, st := s } := by
  obtain ⟨g2, g3, g4, g5⟩ := quiescent_spec hq
  simp [step, rule2, rule3, rule4, rule5, hU, g2, g3, g4, g5]

/-- In a quiescent state, a block of flag-preserving lines passes through the
Rewriter unchanged, byte for byte and in order. -/
theorem run_passive (basename id : String) (s : RewState) (L M : List String)
    (hq : quiescent s = true) (hL : ∀ l ∈ L, updateFlags s l = s) :
    rewriteGo basename id s (L ++ M) = L ++ rewriteGo basename id s M := by
  induction L with
  | nil => simp
  | cons a L ih =>
    have ha : updateFlags s a = s := hL a (by simp)
    rw [List.cons_append, rewriteGo_cons, step_passive ha hq]
    simp only [List.nil_append]
    rw [ih (fun l hl => hL l (by simp [hl])), List.cons_append]

theorem run_passive_end (basename id : String) (s : RewState) (L : List String)
    (hq : quiescent s = true) (hL : ∀ l ∈ L, updateFlags s l = s) :
    rewriteGo basename id s L = L := by
  have := run_passive basename id s L [] hq hL
  rwa [List.append_nil, rewriteGo_nil, List.append_nil] at this

/-! ### Evaluating `step` on the directive lines -/

/-- A `SOLUTION` line: enter the section and reset its bookkeeping flags;
no output rule fires on the line itself. -/
theorem step_sol {basename id : String} {s : RewState} {l : String} {rest : List String}
    (h : pyStartsWith l "SOLUTION" = true) :
    step basename id s l rest =
      { out := [], line := l, rest := rest,
        st := { s with in_solution := true, restart_updated := false, found_restart := false,
                       found_include := false, found_commented_include := false } } := by
  simp [step, updateFlags, h, rule2, rule3, rule4, rule5, gate2, gate3, gate4, gate5]

/-- A `SCHEDULE` line in a state with `found_restart` clear: enter the section
and reset its bookkeeping flags; no output rule fires on the line itself. -/
theorem step_sch {basename id : String} {s : RewState} {l : String} {rest : List String}
    (h : pyStartsWith l "SCHEDULE" = true) (hfr : s.found_restart = false) :
    step basename id s l rest =
      { out := [], line := l, rest := rest,
        st := { s with in_schedule := true, in_solution := false, found_skiprest := false,
                       found_include := false, found_commented_include := false } } := by
  simp [step, updateFlags, h, sch_not_sol h, sch_not_sum h, rule2, rule3, rule4, rule5,
    gate2, gate3, gate4, gate5, hfr]

/-- A `RESTART` line in a state where no INCLUDE has been seen and the restart
has not been updated this scope: rule 3 fires, emits the line as-is, consumes
the following input line and replaces it by the generated parameter line. -/
theorem step_res {basename id : String} {s : RewState} {l : String} {rest : List String}
    (h : pyStartsWith l "RESTART" = true) (hfi : s.found_include = false)
    (hfci : s.found_commented_include = false) (hru : s.restart_updated = false) :
    step basename id s l rest =
      { out := [l], line := restartLine basename id, rest := rest.drop 1,
        st := { s with found_restart := true, restart_updated := true } } := by
  simp [step, updateFlags, h, res_not_sol h, res_not_sum h, res_not_sch h,
    rule2, rule3, rule4, rule5, gate2, gate3, gate4, gate5, hfi, hfci, hru]

/-- An `INCLUDE` line inside SOLUTION with no `RESTART` seen and nothing
commented yet: rule 2 inserts the fresh `RESTART` block, then rule 4 comments
the INCLUDE line and its follower. -/
theorem step_inc {basename id : String} {s : RewState} {l : String} {rest : List String}
    (h : pyStartsWith l "INCLUDE" = true) (hsol : s.in_solution = true)
    (hsch : s.in_schedule = false) (hfr : s.found_restart = false)
    (hfci : s.found_commented_include = false) :
    step basename id s l rest =
      { out := ["RESTART\n", restartLine basename id, "\n", "--" ++ l],
        line := "--" ++ rest.headD "", rest := rest.drop 1,
        st := { s with found_include := true, found_restart := true, restart_updated := true,
                       found_commented_include := true } } := by
  simp [step, updateFlags, h, inc_not_sol h, inc_not_sum h, inc_not_sch h, inc_not_res h,
    rule2, rule3, rule4, rule5, gate2, gate3, gate4, gate5, hsol, hsch, hfr, hfci]

/-- An `INCLUDE` line inside SCHEDULE (and outside SOLUTION) with no SKIPREST
inserted yet: rule 5 inserts `'SKIPREST\n\n'` before the line. -/
theorem step_inc_sch {basename id : String} {s : RewState} {l : String} {rest : List String}
    (h : pyStartsWith l "INCLUDE" = true) (hsol : s.in_solution = false)
    (hsch : s.in_schedule = true) (hfr : s.found_restart = false)
    (hsk : s.found_skiprest = false) :
    step basename id s l rest =
      { out := ["SKIPREST\n\n"], line := l, rest := rest,
        st := { s with found_include := true, found_skiprest := true } } := by
  simp [step, updateFlags, h, inc_not_sol h, inc_not_sum h, inc_not_sch h, inc_not_res h,
    rule2, rule3, rule4, rule5, gate2, gate3, gate4, gate5, hsol, hsch, hfr, hsk]

/-! ### Claim theorems about the Rewriter -/

/-- **C2** (fresh insertion): for a deck whose SOLUTION section contains an
INCLUDE block and no RESTART line (all other lines being plain content lines),
the Rewriter inserts the three lines `RESTART`, `' {basename} {id} /'` and a
blank line immediately before the line where the scan detects the INCLUDE,
emits the INCLUDE line and the one line following it prefixed with `--`
(no added space), and leaves every other line unchanged and in order. -/
theorem claim2_fresh_insertion (basename id sol inc arg : String) (A B C : List String)
    (hA : ∀ l ∈ A, inert l = true) (hB : ∀ l ∈ B, inert l = true)
    (hC : ∀ l ∈ C, inert l = true)
    (hsol : pyStartsWith sol "SOLUTION" = true)
    (hinc : pyStartsWith inc "INCLUDE" = true) :
    update_data_file basename id (A ++ (sol :: (B ++ (inc :: (arg :: C))))) =
      A ++ (sol :: (B ++ ("RESTART\n" :: (restartLine basename id :: ("\n" ::
        (("--" ++ inc) :: (("--" ++ arg) :: C))))))) := by
  unfold update_data_file
  rw [run_passive basename id initState A _ (by decide)
      (fun l hl => updateFlags_inert (hA l hl))]
  rw [rewriteGo_cons, step_sol hsol]
  simp only [List.nil_append]
  rw [run_passive basename id _ B _ (by decide)
      (fun l hl => updateFlags_inert (hB l hl))]
  rw [rewriteGo_cons, step_inc hinc rfl rfl rfl rfl]
  simp only [List.headD_cons, List.drop_succ_cons, List.drop_zero]
  rw [run_passive_end basename id _ C (by decide)
      (fun l hl => updateFlags_inert (hC l hl))]
  simp

/-- **C3** (update of an existing RESTART): for a deck whose SOLUTION section
already contains a `RESTART` keyword line immediately followed by its
parameter line (all other lines being plain content lines), the Rewriter
emits the RESTART line as-is in its original position, consumes the following
input line, discarding its content, and emits the freshly generated
`' {basename} {id} /'` line in its place, exactly once, with no duplication. -/
theorem claim3_update_restart (basename id sol res param : String) (A B C : List String)
    (hA : ∀ l ∈ A, inert l = true) (hB : ∀ l ∈ B, inert l = true)
    (hC : ∀ l ∈ C, inert l = true)
    (hsol : pyStartsWith sol "SOLUTION" = true)
    (hres : pyStartsWith res "RESTART" = true) :
    update_data_file basename id (A ++ (sol :: (B ++ (res :: (param :: C))))) =
      A ++ (sol :: (B ++ (res :: (restartLine basename id :: C)))) := by
  unfold update_data_file
  rw [run_passive basename id initState A _ (by decide)
      (fun l hl => updateFlags_inert (hA l hl))]
  rw [rewriteGo_cons, step_sol hsol]
  simp only [List.nil_append]
  rw [run_passive basename id _ B _ (by decide)
      (fun l hl => updateFlags_inert (hB l hl))]
  rw [rewriteGo_cons, step_res hres rfl rfl rfl]
  simp only [List.drop_succ_cons, List.drop_zero]
  rw [run_passive_end basename id _ C (by decide)
      (fun l hl => updateFlags_inert (hC l hl))]
  simp

/-- **C9** (implicit; RESTART update is not gated on section context): a
`RESTART` line occurring before any `SOLUTION` line is still processed by the
update rule: the Rewriter emits it, discards the immediately following input
line, and emits the generated `' {basename} {id} /'` parameter line instead. -/
theorem claim9_restart_outside_solution (basename id res param : String) (A C : List String)
    (hA : ∀ l ∈ A, inert l = true) (hC : ∀ l ∈ C, inert l = true)
    (hres : pyStartsWith res "RESTART" = true) :
    update_data_file basename id (A ++ (res :: (param :: C))) =
      A ++ (res :: (restartLine basename id :: C)) := by
  unfold update_data_file
  rw [run_passive basename id initState A _ (by decide)
      (fun l hl => updateFlags_inert (hA l hl))]
  rw [rewriteGo_cons, step_res hres rfl rfl rfl]
  simp only [List.drop_succ_cons, List.drop_zero]
  rw [run_passive_end basename id _ C (by decide)
      (fun l hl => updateFlags_inert (hC l hl))]
  simp

/-- **C10** (implicit; lookahead at end of input is total): if the deck's last
line triggers the RESTART update rule or the INCLUDE comment rule, the one
line of lookahead reads the empty string and the Rewriter still terminates
normally: after a final `RESTART` line it emits the generated parameter line,
and after a final uncommented `INCLUDE` line in SOLUTION it emits the
commented INCLUDE line followed by a final line consisting of exactly `--`. -/
theorem claim10_lookahead_total (basename id : String) :
    (∀ (res : String) (A : List String), (∀ l ∈ A, inert l = true) →
       pyStartsWith res "RESTART" = true →
       update_data_file basename id (A ++ [res]) =
         A ++ [res, restartLine basename id])
  ∧ (∀ (sol inc : String) (A B : List String),
       (∀ l ∈ A, inert l = true) → (∀ l ∈ B, inert l = true) →
       pyStartsWith sol "SOLUTION" = true → pyStartsWith inc "INCLUDE" = true →
       update_data_file basename id (A ++ (sol :: (B ++ [inc]))) =
         A ++ (sol :: (B ++ ["RESTART\n", restartLine basename id, "\n",
           "--" ++ inc, "--"]))) := by
  constructor
  · intro res A hA hres
    unfold update_data_file
    rw [run_passive basename id initState A _ (by decide)
        (fun l hl => updateFlags_inert (hA l hl))]
    rw [rewriteGo_cons, step_res hres rfl rfl rfl]
    simp [rewriteGo_nil]
  · intro sol inc A B hA hB hsol hinc
    unfold update_data_file
    rw [run_passive basename id initState A _ (by decide)
        (fun l hl => updateFlags_inert (hA l hl))]
    rw [rewriteGo_cons, step_sol hsol]
    simp only [List.nil_append]
    rw [run_passive basename id _ B _ (by decide)
        (fun l hl => updateFlags_inert (hB l hl))]
    rw [rewriteGo_cons, step_inc hinc rfl rfl rfl rfl]
    simp [rewriteGo_nil]

/-- **C6** (SKIPREST insertion): inside a SCHEDULE section, at the first
INCLUDE line seen since the SCHEDULE keyword, the Rewriter emits a `SKIPREST`
line followed by a blank line (one string `'SKIPREST\n\n'`) immediately before
that line, and does so at most once per SCHEDULE bookkeeping scope: any
further INCLUDE lines of the section (allowed in the tail `C`) do not trigger
another insertion. -/
theorem claim6_skiprest (basename id sch inc : String) (A B C : List String)
    (hA : ∀ l ∈ A, inert l = true) (hB : ∀ l ∈ B, inert l = true)
    (hC : ∀ l ∈ C, inert l = true ∨ pyStartsWith l "INCLUDE" = true)
    (hsch : pyStartsWith sch "SCHEDULE" = true)
    (hinc : pyStartsWith inc "INCLUDE" = true) :
    update_data_file basename id (A ++ (sch :: (B ++ (inc :: C)))) =
      A ++ (sch :: (B ++ ("SKIPREST\n\n" :: (inc :: C)))) := by
  unfold update_data_file
  rw [run_passive basename id initState A _ (by decide)
      (fun l hl => updateFlags_inert (hA l hl))]
  rw [rewriteGo_cons, step_sch hsch rfl]
  simp only [List.nil_append]
  rw [run_passive basename id _ B _ (by decide)
      (fun l hl => updateFlags_inert (hB l hl))]
  rw [rewriteGo_cons, step_inc_sch hinc rfl rfl rfl rfl]
  simp only [List.nil_append]
  rw [run_passive_end basename id _ C (by decide)
      (fun l hl => (hC l hl).elim (fun h => updateFlags_inert h)
        (fun h => updateFlags_inc_again h rfl))]
  simp

/-! ### Frame lemmas -/

theorem rule2_id {basename id : String} {x : Iter} (h : gate2 x.st = false) :
    rule2 basename id x = x := by
  simp [rule2, h]

/-- If no output rule fires on the current line after the flag update, the
step emits nothing, keeps the current line byte-for-byte, and consumes no
lookahead. -/
theorem step_quiet {basename id : String} {s : RewState} {line : String}
    {rest : List String} (hq : quiescent (updateFlags s line) = true) :
    step basename id s line rest =
      { out := [], line := line, rest := rest, st := updateFlags s line } := by
  obtain ⟨g2, g3, g4, g5⟩ := quiescent_spec hq
  simp [step, rule2, rule3, rule4, rule5, g2, g3, g4, g5]

/-- **C7** (frame property): (a) a block of lines that neither changes the
flags nor triggers a rule passes through byte-for-byte, in its original
relative order; (b) a single line on which no output rule fires after the
flag update is emitted unchanged, exactly once, with no lookahead consumed;
(c) every iterated input line is appended to the output exactly once, after
the lines inserted by the rules of that iteration, and the iteration
continues with exactly the not-yet-consumed input lines. -/
theorem claim7_frame (basename id : String) :
    (∀ (s : RewState) (L M : List String), quiescent s = true →
       (∀ l ∈ L, updateFlags s l = s) →
       rewriteGo basename id s (L ++ M) = L ++ rewriteGo basename id s M)
  ∧ (∀ (s : RewState) (line : String) (rest : List String),
       quiescent (updateFlags s line) = true →
       step basename id s line rest =
         { out := [], line := line, rest := rest, st := updateFlags s line })
  ∧ (∀ (s : RewState) (line : String) (rest : List String),
       rewriteGo basename id s (line :: rest) =
         (step basename id s line rest).out ++ (step basename id s line rest).line ::
           rewriteGo basename id (step basename id s line rest).st
             (step basename id s line rest).rest) :=
  ⟨fun s L M hq hL => run_passive basename id s L M hq hL,
   fun _ _ _ hq => step_quiet hq,
   fun s line rest => rewriteGo_cons basename id s line rest⟩

/-! ### No SOLUTION section: no RESTART is ever inserted -/

theorem updateFlags_no_sol {s : RewState} {line : String}
    (hline : pyStartsWith line "SOLUTION" = false) (hs : s.in_solution = false) :
    (updateFlags s line).in_solution = false := by
  unfold updateFlags
  split_ifs <;> simp_all

theorem restartLine_not_res (basename id : String) :
    pyStartsWith (restartLine basename id) "RESTART" = false := by
  have : (restartLine basename id).data = ' ' :: (basename ++ " " ++ id ++ " /\n").data := by
    simp [restartLine, String.data_append]
  simp [pyStartsWith, this, List.isPrefixOf]

/-- With `in_solution` false and a current line that does not start a SOLUTION
section, the step keeps `in_solution` false, consumes a suffix of the
remaining input, and every emitted line that begins with `RESTART` is the
current input line itself. -/
theorem step_no_sol {basename id : String} {s : RewState} {line : String} {rest : List String}
    (hline : pyStartsWith line "SOLUTION" = false) (hs : s.in_solution = false) :
    (step basename id s line rest).st.in_solution = false ∧
    (∃ k, (step basename id s line rest).rest = rest.drop k) ∧
    (∀ l ∈ (step basename id s line rest).out,
       pyStartsWith l "RESTART" = true → l = line) ∧
    (pyStartsWith (step basename id s line rest).line "RESTART" = true →
       (step basename id s line rest).line = line) := by
  have hsk : pyStartsWith "SKIPREST\n\n" "RESTART" = false := by decide
  have h1 : (updateFlags s line).in_solution = false := updateFlags_no_sol hline hs
  have hrl := restartLine_not_res basename id
  unfold step
  rcases hU : updateFlags s line with ⟨isol, isch, ru, fr, fsk, fi, fci⟩
  rw [hU] at h1
  simp only at h1
  subst h1
  cases isch <;> cases ru <;> cases fr <;> cases fsk <;> cases fi <;> cases fci <;>
    simp [rule2, rule3, rule4, rule5, gate2, gate3, gate4, gate5, hsk, hrl] <;>
    first
      | exact ⟨0, rfl⟩
      | exact ⟨1, rfl⟩
      | exact ⟨1, by simp⟩

/-- Over a deck with no `SOLUTION` line, starting from a state outside
SOLUTION, every output line that begins with `RESTART` already occurs in the
input: no RESTART directive is inserted. -/
theorem rewriteGo_restart_mem (basename id : String) :
    ∀ (n : Nat) (deck : List String) (s : RewState), deck.length ≤ n →
      s.in_solution = false →
      (∀ d ∈ deck, pyStartsWith d "SOLUTION" = false) →
      ∀ l ∈ rewriteGo basename id s deck, pyStartsWith l "RESTART" = true → l ∈ deck := by
  intro n
  induction n with
  | zero =>
    intro deck s hlen _ _ l hl
    rw [List.length_eq_zero.mp (Nat.le_zero.mp hlen)] at hl
    rw [rewriteGo_nil] at hl
    exact absurd hl (List.not_mem_nil l)
  | succ n ih =>
    intro deck s hlen hs hno l hl hres
    match deck with
    | [] =>
      rw [rewriteGo_nil] at hl
      exact absurd hl (List.not_mem_nil l)
    | line :: rest =>
      rw [rewriteGo_cons] at hl
      obtain ⟨hstsol, ⟨k, hk⟩, hout, hline⟩ :=
        @step_no_sol basename id s line rest (hno line (by simp)) hs
      rcases List.mem_append.mp hl with h1 | h2
      · rw [hout l h1 hres]; simp
      · rcases List.mem_cons.mp h2 with h3 | h4
        · rw [h3, hline (h3 ▸ hres)]; simp
        · have hsub : (step basename id s line rest).rest ⊆ rest := by
            rw [hk]; exact List.drop_subset k rest
          have hlen2 : (step basename id s line rest).rest.length ≤ n := by
            have := step_rest_le basename id s line rest
            simp only [List.length_cons] at hlen
            omega
          have := ih (step basename id s line rest).rest
            (step basename id s line rest).st hlen2 hstsol
            (fun d hd => hno d (List.mem_cons_of_mem line (hsub hd))) l h4 hres
          exact List.mem_cons_of_mem line (hsub this)

/-- **C8** (no SOLUTION section): for a deck with no line beginning with
`SOLUTION`, the Rewriter completes (it is a total function) and inserts no
RESTART directive anywhere: every output line beginning with `RESTART` is a
line of the input deck. -/
theorem claim8_no_solution (basename id : String) (deck : List String)
    (hno : ∀ d ∈ deck, pyStartsWith d "SOLUTION" = false) :
    ∀ l ∈ update_data_file basename id deck,
      pyStartsWith l "RESTART" = true → l ∈ deck :=
  rewriteGo_restart_mem basename id deck.length deck initState le_rfl rfl hno

/-! ### Idempotence fails: re-running duplicates the SKIPREST block -/

/-- **C1** (idempotence) is violated by the code: the `if/elif` flag chain has
no case for lines beginning with `SKIPREST`, so `found_skiprest` is never set
when an already-inserted `SKIPREST` line is read back.  Re-running the
Rewriter on its own output for a deck whose SCHEDULE section contains an
INCLUDE therefore inserts a second `SKIPREST` block (the source comment "Add
SKIPREST to SCHEDULE section if not already there" states the intent that is
violated).  Concretely, for the deck `SCHEDULE / INCLUDE / argument`, the
second application is not byte-identical to the first. -/
theorem claim1_not_idempotent :
    update_data_file "CASE" "0001"
        (update_data_file "CASE" "0001" ["SCHEDULE\n", "INCLUDE\n", " SCH.INC /\n"]) ≠
      update_data_file "CASE" "0001" ["SCHEDULE\n", "INCLUDE\n", " SCH.INC /\n"] := by
  have h1 : update_data_file "CASE" "0001" ["SCHEDULE\n", "INCLUDE\n", " SCH.INC /\n"] =
      ["SCHEDULE\n", "SKIPREST\n\n", "INCLUDE\n", " SCH.INC /\n"] := by
    unfold update_data_file
    rw [rewriteGo_cons, step_sch (by decide) rfl]
    simp only [List.nil_append]
    rw [rewriteGo_cons, step_inc_sch (by decide) rfl rfl rfl rfl]
    simp only [List.nil_append]
    rw [run_passive_end "CASE" "0001" _ [" SCH.INC /\n"] (by decide)
        (fun l hl => by
          rw [List.mem_singleton] at hl
          subst hl
          exact updateFlags_inert (by decide))]
    rfl
  have h2 : update_data_file "CASE" "0001"
        ["SCHEDULE\n", "SKIPREST\n\n", "INCLUDE\n", " SCH.INC /\n"] =
      ["SCHEDULE\n", "SKIPREST\n\n", "SKIPREST\n\n", "INCLUDE\n", " SCH.INC /\n"] := by
    unfold update_data_file
    rw [rewriteGo_cons, step_sch (by decide) rfl]
    simp only [List.nil_append]
    rw [rewriteGo_cons, step_passive (updateFlags_inert (by decide)) (by decide)]
    simp only [List.nil_append]
    rw [rewriteGo_cons, step_inc_sch (by decide) rfl rfl rfl rfl]
    simp only [List.nil_append]
    rw [run_passive_end "CASE" "0001" _ [" SCH.INC /\n"] (by decide)
        (fun l hl => by
          rw [List.mem_singleton] at hl
          subst hl
          exact updateFlags_inert (by decide))]
    rfl
  rw [h1, h2]
  decide

/-! ### The Restart-Point Resolver -/

/-- Python string comparison `x < y`: lexicographic on the code points, a
shorter string being smaller than its extensions. -/
def pyLtb : List Char → List Char → Bool
  | _, [] => false
  | [], _ :: _ => true
  | a :: as, b :: bs => if a = b then pyLtb as bs else decide (a < b)

/-- Python string `a <= b` (the order `list.sort()` sorts by): `¬ (b < a)`. -/
def pyLe (a b : String) : Prop := pyLtb b.data a.data = false

instance : DecidableRel pyLe :=
  fun a b => inferInstanceAs (Decidable (pyLtb b.data a.data = false))

theorem pyLtb_irrefl : ∀ l : List Char, pyLtb l l = false
  | [] => rfl
  | a :: as => by simp [pyLtb, pyLtb_irrefl as]

theorem pyLtb_asymm : ∀ x y : List Char, pyLtb x y = true → pyLtb y x = false
  | _, [], h => by simp [pyLtb] at h
  | [], _ :: _, _ => rfl
  | a :: as, b :: bs, h => by
    by_cases hab : a = b
    · subst hab
      simp only [pyLtb, if_pos rfl] at h ⊢
      exact pyLtb_asymm as bs h
    · simp only [pyLtb, hab, if_false, decide_eq_true_eq] at h
      have hba : ¬ b = a := fun e => hab e.symm
      simp [pyLtb, hba, lt_asymm h]

theorem pyLtb_trans : ∀ x y z : List Char,
    pyLtb x y = true → pyLtb y z = true → pyLtb x z = true
  | _, _, [], _, h2 => by simp [pyLtb] at h2
  | _, [], _ :: _, h1, _ => by simp [pyLtb] at h1
  | [], _ :: _, _ :: _, _, _ => rfl
  | a :: as, b :: bs, c :: cs, h1, h2 => by
    by_cases hab : a = b <;> by_cases hbc : b = c
    · subst hab; subst hbc
      simp only [pyLtb, if_pos rfl] at h1 h2 ⊢
      exact pyLtb_trans as bs cs h1 h2
    · subst hab
      simp only [pyLtb, hbc, if_pos rfl, if_false] at h2 ⊢
      exact h2
    · subst hbc
      simp only [pyLtb, hab, if_pos rfl, if_false] at h1 ⊢
      exact h1
    · simp only [pyLtb, hab, hbc, if_false, decide_eq_true_eq] at h1 h2
      have hac : a < c := lt_trans h1 h2
      simp [pyLtb, ne_of_lt hac, hac]

theorem pyLtb_trichot : ∀ x y : List Char,
    pyLtb x y = true ∨ x = y ∨ pyLtb y x = true
  | [], [] => Or.inr (Or.inl rfl)
  | [], _ :: _ => Or.inl rfl
  | _ :: _, [] => Or.inr (Or.inr rfl)
  | a :: as, b :: bs => by
    by_cases hab : a = b
    · subst hab
      rcases pyLtb_trichot as bs with h | h | h
      · left; simp [pyLtb, h]
      · right; left; rw [h]
      · right; right; simp [pyLtb, h]
    · rcases lt_or_gt_of_ne hab with h | h
      · left; simp [pyLtb, hab, h]
      · right; right
        have hba : ¬ b = a := fun e => hab e.symm
        simp [pyLtb, hba, h]

theorem pyLe_refl (a : String) : pyLe a a := pyLtb_irrefl a.data

theorem pyLe_total (a b : String) : pyLe a b ∨ pyLe b a := by
  cases h : pyLtb b.data a.data with
  | false => exact Or.inl h
  | true => exact Or.inr (pyLtb_asymm _ _ h)

instance : IsTotal String pyLe := ⟨pyLe_total⟩

theorem pyLe_trans (a b c : String) (h1 : pyLe a b) (h2 : pyLe b c) : pyLe a c := by
  unfold pyLe at h1 h2 ⊢
  cases hca : pyLtb c.data a.data with
  | false => rfl
  | true =>
    rcases pyLtb_trichot a.data b.data with h | h | h
    · rw [pyLtb_trans _ _ _ hca h] at h2; cases h2
    · rw [h] at hca; rw [hca] at h2; cases h2
    · rw [h] at h1; cases h1

instance : IsTrans String pyLe := ⟨fun a b c => pyLe_trans a b c⟩

theorem pyLe_antisymm {a b : String} (h1 : pyLe a b) (h2 : pyLe b a) : a = b := by
  rcases pyLtb_trichot a.data b.data with h | h | h
  · unfold pyLe at h2; rw [h] at h2; cases h2
  · obtain ⟨da⟩ := a; obtain ⟨db⟩ := b; simp only at h; exact congrArg String.mk h
  · unfold pyLe at h1; rw [h] at h1; cases h1

/-- In a list sorted by `pyLe`, every member is `pyLe` the last element. -/
theorem sorted_le_getLast : ∀ (L : List String) (hne : L ≠ []),
    L.Sorted pyLe → ∀ a ∈ L, pyLe a (L.getLast hne)
  | [], hne, _, _, _ => absurd rfl hne
  | [x], _, _, a, ha => by
    rw [List.mem_singleton] at ha; subst ha; exact pyLe_refl _
  | x :: y :: t, _, hS, a, ha => by
    rw [List.getLast_cons (List.cons_ne_nil y t)]
    rcases List.mem_cons.mp ha with h | h
    · subst h
      exact (List.sorted_cons.mp hS).1 _ (List.getLast_mem (List.cons_ne_nil y t))
    · exact sorted_le_getLast (y :: t) (List.cons_ne_nil y t)
        (List.sorted_cons.mp hS).2 a h

/-- The captured group of `re.search(r'\.X([0-9]{4})$', x_filename)` for a
file name that matched the glob: its last four characters. -/
def takeRight4 (f : String) : String := String.mk (f.data.drop (f.data.length - 4))

/-- A file name matching the glob pattern
`'{basename:s}.X[0-9][0-9][0-9][0-9]'` (source line 25): `basename ++ ".X"`
followed by exactly four decimal digits. -/
def xMatch (basename f : String) : Bool :=
  pyStartsWith f (basename ++ ".X") &&
    f.data.length == basename.data.length + 6 &&
    (f.data.drop (basename.data.length + 2)).all Char.isDigit

/-- `determine_restart_id` (source lines 20-53), over a filesystem modelled as
the list of existing file names: glob the `.Xnnnn` files and sort them, fail
fatally if there are none, select the last (lexicographically greatest), take
its last four characters as the id, fail fatally if the companion `.Snnnn`
file does not exist, and otherwise return the id string. -/
def determine_restart_id (fs : List String) (basename : String) : Except String String :=
  let xfiles := List.insertionSort pyLe (fs.filter (fun f => xMatch basename f))
  if xfiles.isEmpty then
    Except.error ("FATAL ERROR:\nDid not find any restart file: \"" ++ basename ++
      ".X0000\"\nexiting.")
  else
    let x_filename := xfiles.getLastD ""
    let id := takeRight4 x_filename
    let s_filename := basename ++ ".S" ++ id
    if s_filename ∈ fs then Except.ok id
    else
      Except.error ("FATAL ERROR:\nFound " ++ x_filename ++ ",\nbut   " ++ s_filename ++
        " does not exist!\nexiting.")

/-- The `__main__` sequence relevant to error handling (source lines 179-192):
`determine_restart_id` runs first; only when it succeeds is the deck file
read, rewritten by `update_data_file` and written back.  A fatal Resolver
error (`sys.exit(1)`) propagates and no deck output is produced. -/
def main_run (fs : List String) (basename : String) (deck : List String) :
    Except String (List String) :=
  match determine_restart_id fs basename with
  | Except.error e => Except.error e
  | Except.ok id => Except.ok (update_data_file basename id deck)

theorem stringDataInj {a b : String} (h : b.data = a.data) : a = b := by
  obtain ⟨da⟩ := a; obtain ⟨db⟩ := b
  simp only at h
  exact congrArg String.mk h.symm

/-- A glob match decomposes as `basename ++ ".X" ++ dddd` with `dddd` its
four trailing decimal digits. -/
theorem xMatch_decomp {basename f : String} (h : xMatch basename f = true) :
    f = basename ++ ".X" ++ takeRight4 f ∧ (takeRight4 f).data.length = 4 ∧
      (takeRight4 f).data.all Char.isDigit = true := by
  simp only [xMatch, Bool.and_eq_true, beq_iff_eq] at h
  obtain ⟨⟨hp, hlen⟩, hdig⟩ := h
  obtain ⟨t, ht⟩ := List.isPrefixOf_iff_prefix.mp hp
  have hlen2 : (basename ++ ".X").data.length = basename.data.length + 2 := by
    simp [String.data_append]
  have hflen : basename.data.length + 2 + t.length = f.data.length := by
    have h5 := congrArg List.length ht
    rw [List.length_append, hlen2] at h5
    exact h5
  have htr : (takeRight4 f).data = t := by
    simp only [takeRight4]
    have hd : f.data.length - 4 = (basename ++ ".X").data.length := by
      rw [hlen2]; omega
    rw [hd, ← ht, List.drop_left]
  refine ⟨?_, ?_, ?_⟩
  · refine stringDataInj ?_
    rw [String.data_append, htr, ← ht, String.data_append]
  · rw [htr]; omega
  · have : f.data.drop (basename.data.length + 2) = t := by
      rw [← hlen2, ← ht, List.drop_left]
    rw [htr, ← this]
    exact hdig

/-- **C4** (Resolver correctness): if `m` is a file of the filesystem matching
`{basename}.X` followed by four decimal digits, every matching file is
lexicographically at most `m`, and the companion `{basename}.S{id}` exists,
then `determine_restart_id` returns, as a string, the trailing four-digit
identifier of `m`, which is exactly the last four characters of
`m = basename ++ ".X" ++ id` (zero-padding preserved). -/
theorem claim4_resolver (fs : List String) (basename m : String)
    (hm : m ∈ fs) (hx : xMatch basename m = true)
    (hmax : ∀ f ∈ fs, xMatch basename f = true → pyLe f m)
    (hs : (basename ++ ".S" ++ takeRight4 m) ∈ fs) :
    determine_restart_id fs basename = Except.ok (takeRight4 m) ∧
      m = basename ++ ".X" ++ takeRight4 m ∧
      (takeRight4 m).data.length = 4 ∧
      (takeRight4 m).data.all Char.isDigit = true := by
  obtain ⟨hdecomp, hlen4, hdig⟩ := xMatch_decomp hx
  refine ⟨?_, hdecomp, hlen4, hdig⟩
  simp only [determine_restart_id]
  set L := List.insertionSort pyLe (fs.filter (fun f => xMatch basename f)) with hL
  have hperm : L.Perm (fs.filter (fun f => xMatch basename f)) := by
    rw [hL]; exact List.perm_insertionSort pyLe _
  have hsorted : L.Sorted pyLe := by
    rw [hL]; exact List.sorted_insertionSort pyLe _
  have hmem : m ∈ L := hperm.mem_iff.mpr (List.mem_filter.mpr ⟨hm, hx⟩)
  have hne : L ≠ [] := fun e => List.not_mem_nil m (e ▸ hmem)
  have hg1 : pyLe m (L.getLast hne) := sorted_le_getLast L hne hsorted m hmem
  have hgmem : L.getLast hne ∈ fs.filter (fun f => xMatch basename f) :=
    hperm.mem_iff.mp (List.getLast_mem hne)
  have hg2 : pyLe (L.getLast hne) m := by
    have h2 := List.mem_filter.mp hgmem
    exact hmax _ h2.1 (by simpa using h2.2)
  have hgd : L.getLastD "" = m := by
    rw [List.getLastD_eq_getLast? "" L, List.getLast?_eq_getLast L hne]
    exact pyLe_antisymm hg2 hg1
  have hEmp : ¬ (L.isEmpty = true) := by
    cases hc : L with
    | nil => exact absurd hc hne
    | cons a t => simp
  rw [if_neg hEmp, hgd, if_pos hs]

/-- **C5** (fatal error conditions): `determine_restart_id` fails if and only
if either no file matches the four-digit primary pattern for the base name,
or the companion `{basename}.S{id}` of the selected (lexicographically
greatest) match does not exist; and whenever it fails, the whole operation
returns that error without rewriting the deck: `update_data_file` is never
reached and no (partial) output deck is produced. -/
theorem claim5_fatal_conditions (fs : List String) (basename : String) (deck : List String) :
    ((∃ e, determine_restart_id fs basename = Except.error e) ↔
       (fs.filter (fun f => xMatch basename f) = [] ∨
         (basename ++ ".S" ++ takeRight4
           ((List.insertionSort pyLe (fs.filter (fun f => xMatch basename f))).getLastD ""))
           ∉ fs))
  ∧ (∀ e, determine_restart_id fs basename = Except.error e →
       main_run fs basename deck = Except.error e) := by
  constructor
  · by_cases hmnil : fs.filter (fun f => xMatch basename f) = []
    · have hnil : List.insertionSort pyLe (fs.filter (fun f => xMatch basename f)) = [] := by
        rw [hmnil]
        rfl
      constructor
      · intro _
        exact Or.inl hmnil
      · intro _
        exact ⟨_, by
          simp only [determine_restart_id]
          rw [hnil]
          rfl⟩
    · have hne : List.insertionSort pyLe (fs.filter (fun f => xMatch basename f)) ≠ [] := by
        intro e
        have hperm := List.perm_insertionSort pyLe (fs.filter (fun f => xMatch basename f))
        rw [e] at hperm
        exact hmnil (hperm.symm.eq_nil)
      have hEmp : ¬ ((List.insertionSort pyLe
          (fs.filter (fun f => xMatch basename f))).isEmpty = true) := by
        cases hc : List.insertionSort pyLe (fs.filter (fun f => xMatch basename f)) with
        | nil => exact absurd hc hne
        | cons a t => simp
      constructor
      · rintro ⟨e, he⟩
        simp only [determine_restart_id] at he
        rw [if_neg hEmp] at he
        by_cases hmem : (basename ++ ".S" ++ takeRight4
            ((List.insertionSort pyLe (fs.filter (fun f => xMatch basename f))).getLastD ""))
            ∈ fs
        · rw [if_pos hmem] at he
          cases he
        · exact Or.inr hmem
      · intro h
        rcases h with h | h
        · exact absurd h hmnil
        · exact ⟨_, by
            simp only [determine_restart_id]
            rw [if_neg hEmp, if_neg h]⟩
  · intro e he
    simp only [main_run]
    rw [he]

/-! ### Concrete witnesses -/

theorem claim2_witness :
    (∀ l ∈ ["RUNSPEC\n"], inert l = true) ∧
    (∀ l ∈ ["PRESSURE\n"], inert l = true) ∧
    (∀ l ∈ ["END\n"], inert l = true) ∧
    pyStartsWith "SOLUTION\n" "SOLUTION" = true ∧
    pyStartsWith "INCLUDE\n" "INCLUDE" = true ∧
    update_data_file "CASE" "0007"
        ["RUNSPEC\n", "SOLUTION\n", "PRESSURE\n", "INCLUDE\n", " EQUIL.INC /\n", "END\n"] =
      ["RUNSPEC\n", "SOLUTION\n", "PRESSURE\n", "RESTART\n", " CASE 0007 /\n", "\n",
        "--INCLUDE\n", "-- EQUIL.INC /\n", "END\n"] :=
  ⟨by decide, by decide, by decide, by decide, by decide,
    claim2_fresh_insertion "CASE" "0007" "SOLUTION\n" "INCLUDE\n" " EQUIL.INC /\n"
      ["RUNSPEC\n"] ["PRESSURE\n"] ["END\n"]
      (by decide) (by decide) (by decide) (by decide) (by decide)⟩

theorem claim3_witness :
    pyStartsWith "SOLUTION\n" "SOLUTION" = true ∧
    pyStartsWith "RESTART\n" "RESTART" = true ∧
    update_data_file "CASE" "0009"
        ["RUNSPEC\n", "SOLUTION\n", "PRESSURE\n", "RESTART\n", " CASE 0003 /\n", "END\n"] =
      ["RUNSPEC\n", "SOLUTION\n", "PRESSURE\n", "RESTART\n", " CASE 0009 /\n", "END\n"] :=
  ⟨by decide, by decide,
    claim3_update_restart "CASE" "0009" "SOLUTION\n" "RESTART\n" " CASE 0003 /\n"
      ["RUNSPEC\n"] ["PRESSURE\n"] ["END\n"]
      (by decide) (by decide) (by decide) (by decide) (by decide)⟩

theorem claim4_witness :
    ("CASE.X0012" ∈ ["CASE.X0000", "CASE.X0003", "CASE.X0012", "CASE.S0012"]) ∧
    xMatch "CASE" "CASE.X0012" = true ∧
    (∀ f ∈ ["CASE.X0000", "CASE.X0003", "CASE.X0012", "CASE.S0012"],
       xMatch "CASE" f = true → pyLe f "CASE.X0012") ∧
    determine_restart_id ["CASE.X0000", "CASE.X0003", "CASE.X0012", "CASE.S0012"] "CASE" =
      Except.ok "0012" :=
  ⟨by decide, by decide, by decide,
    (claim4_resolver ["CASE.X0000", "CASE.X0003", "CASE.X0012", "CASE.S0012"] "CASE"
      "CASE.X0012" (by decide) (by decide) (by decide) (by decide)).1⟩

theorem claim5_witness :
    determine_restart_id ["CASE.X0005"] "CASE" = Except.error
      "FATAL ERROR:\nFound CASE.X0005,\nbut   CASE.S0005 does not exist!\nexiting." ∧
    main_run ["CASE.X0005"] "CASE" ["SOLUTION\n"] = Except.error
      "FATAL ERROR:\nFound CASE.X0005,\nbut   CASE.S0005 does not exist!\nexiting." :=
  ⟨by rfl,
    (claim5_fatal_conditions ["CASE.X0005"] "CASE" ["SOLUTION\n"]).2
      "FATAL ERROR:\nFound CASE.X0005,\nbut   CASE.S0005 does not exist!\nexiting."
      (by rfl)⟩

theorem claim6_witness :
    pyStartsWith "SCHEDULE\n" "SCHEDULE" = true ∧
    pyStartsWith "INCLUDE\n" "INCLUDE" = true ∧
    (∀ l ∈ [" SCH.INC /\n", "INCLUDE\n"],
       inert l = true ∨ pyStartsWith l "INCLUDE" = true) ∧
    update_data_file "CASE" "0004"
        ["SCHEDULE\n", "WELSPECS\n", "INCLUDE\n", " SCH.INC /\n", "INCLUDE\n"] =
      ["SCHEDULE\n", "WELSPECS\n", "SKIPREST\n\n", "INCLUDE\n", " SCH.INC /\n", "INCLUDE\n"] :=
  ⟨by decide, by decide, by decide,
    claim6_skiprest "CASE" "0004" "SCHEDULE\n" "INCLUDE\n"
      [] ["WELSPECS\n"] [" SCH.INC /\n", "INCLUDE\n"]
      (by decide) (by decide) (by decide) (by decide) (by decide)⟩

theorem claim7_witness :
    quiescent initState = true ∧
    (∀ l ∈ ["WELLDATA\n"], updateFlags initState l = initState) ∧
    quiescent (updateFlags initState "GRID\n") = true ∧
    rewriteGo "CASE" "0001" initState (["WELLDATA\n"] ++ ["RESTART\n", " X /\n"]) =
      ["WELLDATA\n"] ++ rewriteGo "CASE" "0001" initState ["RESTART\n", " X /\n"] ∧
    step "CASE" "0001" initState "GRID\n" ["PORO\n"] =
      { out := [], line := "GRID\n", rest := ["PORO\n"], st := initState } :=
  ⟨by decide, by decide, by decide,
    (claim7_frame "CASE" "0001").1 initState ["WELLDATA\n"] ["RESTART\n", " X /\n"]
      (by decide) (by decide),
    (claim7_frame "CASE" "0001").2.1 initState "GRID\n" ["PORO\n"] (by decide)⟩

theorem claim8_witness :
    (∀ d ∈ ["GRID\n", "RESTART\n", " CASE 0001 /\n"], pyStartsWith d "SOLUTION" = false) ∧
    (∀ l ∈ update_data_file "CASE" "0009" ["GRID\n", "RESTART\n", " CASE 0001 /\n"],
       pyStartsWith l "RESTART" = true → l ∈ ["GRID\n", "RESTART\n", " CASE 0001 /\n"]) :=
  ⟨by decide,
    claim8_no_solution "CASE" "0009" ["GRID\n", "RESTART\n", " CASE 0001 /\n"] (by decide)⟩

theorem claim9_witness :
    (∀ l ∈ ["TITLE\n"], inert l = true) ∧
    pyStartsWith "RESTART\n" "RESTART" = true ∧
    update_data_file "CASE" "0005" ["TITLE\n", "RESTART\n", " CASE 0001 /\n", "END\n"] =
      ["TITLE\n", "RESTART\n", " CASE 0005 /\n", "END\n"] :=
  ⟨by decide, by decide,
    claim9_restart_outside_solution "CASE" "0005" "RESTART\n" " CASE 0001 /\n"
      ["TITLE\n"] ["END\n"] (by decide) (by decide) (by decide)⟩

theorem claim10_witness :
    update_data_file "CASE" "0002" ["TITLE\n", "RESTART\n"] =
      ["TITLE\n", "RESTART\n", " CASE 0002 /\n"] ∧
    update_data_file "CASE" "0002" ["SOLUTION\n", "INCLUDE\n"] =
      ["SOLUTION\n", "RESTART\n", " CASE 0002 /\n", "\n", "--INCLUDE\n", "--"] :=
  ⟨(claim10_lookahead_total "CASE" "0002").1 "RESTART\n" ["TITLE\n"] (by decide) (by decide),
    (claim10_lookahead_total "CASE" "0002").2 "SOLUTION\n" "INCLUDE\n" [] []
      (by decide) (by decide) (by decide) (by decide)⟩
